import Mathlib

/-!
Verification of the P2P peer-connection channel
(`talk/ics/sdk/p2p/p2ppeerconnectionchannel.cc`).

The channel is shallowly embedded as a pure transition function over an
explicit `Channel` state.  Every public API call, incoming (already parsed)
signaling message and engine callback is an `Event`; each handler returns the
updated channel together with the ordered list of externally visible
`Output`s it produced (signaling messages sent through the
`P2PSignalingSenderInterface`, messages posted to the peer-connection worker
thread `pc_thread_`, tasks posted to the serial `event_queue_`, direct
observer invocations, data-channel sends).  Every `ChangeSessionState` call
additionally records a `stateChange` output so that intermediate session
states taken inside a single handler remain observable.

External collaborators are abstracted exactly where the source abstracts
them: the WebRTC engine is only reached through posted messages
(`EngineMsg`), the JSON layer is elided by working on already-decoded
message payloads, and `SysInfo`-derived UA payloads of outgoing
invitation/acceptance envelopes are not inspected by any handler and are
therefore not carried.
-/

namespace P2P

/-- Model of `P2PPeerConnectionChannel::SessionState` (six states, initial `Ready`). -/
inductive SessionState
  | Ready
  | Offered
  | Pending
  | Matched
  | Connecting
  | Connected
deriving DecidableEq, Repr

/-- The engine's `PeerConnectionInterface::SignalingState`, read by the
channel through the `SignalingState()` accessor and observed through
`OnSignalingChange`. -/
inductive SignalingState
  | Stable
  | HaveLocalOffer
  | HaveRemoteOffer
  | HaveLocalPrAnswer
  | HaveRemotePrAnswer
  | Closed
deriving DecidableEq, Repr

/-- Model of `PeerConnectionInterface::IceConnectionState` values the handler
distinguishes. -/
inductive IceState
  | IceNew
  | IceChecking
  | IceConnected
  | IceCompleted
  | IceDisconnected
  | IceFailed
  | IceClosed
deriving DecidableEq, Repr

/-- Model of `P2PException` kinds surfaced to user callbacks. -/
inductive ExcKind
  | InvalidState
  | InvalidArgument
  | UnsupportedMethod
deriving DecidableEq, Repr

/-- A session description: the `(type, sdp)` pair handed to
`webrtc::CreateSessionDescription`. -/
structure Sdp where
  ty : String
  sdp : String
deriving DecidableEq, Repr

/-- Outgoing signaling envelopes built by the channel.  The UA payload of
`chat-invitation` / `chat-accepted` comes from `SysInfo` and is never read
back by this translation unit, so it is elided. -/
inductive SigMsg
  | invitation
  | acceptance
  | deny
  | stop
  | negotiationNeeded
  | signalSdp (ty : String) (sdp : String)
  | signalCandidates (mid : String) (mline : Int) (cand : String)
  | trackSources (entries : List (String × String))
deriving DecidableEq, Repr

/-- Messages posted (or sent) to the engine worker thread `pc_thread_`. -/
inductive EngineMsg
  | initializePC
  | createOffer
  | createAnswer
  | setLocalDescription (d : Sdp)
  | setRemoteDescription (d : Sdp)
  | setRemoteIceCandidate (mid : String) (mline : Int) (cand : String)
  | closePC
  | addStream (label : String)
  | removeStream (label : String)
  | createDataChannel (label : String)
  | getStats
deriving DecidableEq, Repr

/-- Direct observer invocations (observers are identified by registration
tokens, here `Nat`). -/
inductive ObsEvent
  | OnInvited (o : Nat)
  | OnAccepted (o : Nat)
  | OnDenied (o : Nat)
  | OnStarted (o : Nat)
  | OnStopped (o : Nat)
  | OnData (o : Nat) (peer : String) (msg : String)
deriving DecidableEq, Repr

/-- Tasks posted to the serial `event_queue_`. -/
inductive EvTask
  | failTask (k : ExcKind)
  | successTask
  | streamAdded (label : String)
  | streamRemoved (label : String)
deriving DecidableEq, Repr

/-- Externally visible effects of one handler invocation, in program order. -/
inductive Output
  | signaling (m : SigMsg)
  | enginePost (m : EngineMsg)
  | eventTask (t : EvTask)
  | observer (n : ObsEvent)
  | stateChange (s : SessionState)
  | dcSend (msg : String)
  | timerStart
deriving DecidableEq, Repr

/-- A local stream handed to `Publish`/`Unpublish`: its `MediaStream` label,
its track ids, and whether its `Source()` info reports screen-cast
(`AudioSourceInfo::kScreenCast` / `VideoSourceInfo::kScreenCast`). -/
structure LocalStream where
  label : String
  audioTrackIds : List String
  videoTrackIds : List String
  audioIsScreenCast : Bool
  videoIsScreenCast : Bool
deriving DecidableEq, Repr

/-- A remote `MediaStreamInterface` as seen by `OnAddStream` /
`OnRemoveStream`: label plus audio/video track ids. -/
structure RemoteMediaStream where
  label : String
  audioTrackIds : List String
  videoTrackIds : List String
deriving DecidableEq, Repr

/-- The channel state: every mutable member of `P2PPeerConnectionChannel`
that the embedded handlers read or write.  `remote_track_source_info_` is an
association list with `std::map` key uniqueness maintained by
`mapInsert`; `signalingState` mirrors the engine's `SignalingState()`
accessor, updated when `OnSignalingChange` is observed.  `dataChannelOpen`
is `none` while `data_channel_` is null, otherwise `some b` with `b` true
exactly when the channel's state is `kOpen`.  `last_disconnect_` and
`reconnect_timeout_` are wall-clock data; the timer's decision is carried by
the `reconnectTimeout` event instead. -/
structure Channel where
  localId : String
  remoteId : String
  sessionState : SessionState
  isCaller : Bool
  negotiationNeeded : Bool
  isCreatingOffer : Bool
  setRemoteSdpTask : Option Sdp
  planB : Bool
  removeStreamSupported : Bool
  publishedStreams : List String
  pendingPublishStreams : List LocalStream
  pendingUnpublishStreams : List LocalStream
  pendingMessages : List String
  remoteTrackSourceInfo : List (String × String)
  remoteStreams : List String
  observers : List Nat
  signalingState : SignalingState
  dataChannelOpen : Option Bool
deriving DecidableEq, Repr

/-- Constructor defaults of `P2PPeerConnectionChannel`. -/
def initChannel (localId remoteId : String) : Channel where
  localId := localId
  remoteId := remoteId
  sessionState := .Ready
  isCaller := false
  negotiationNeeded := false
  isCreatingOffer := false
  setRemoteSdpTask := none
  planB := false
  removeStreamSupported := false
  publishedStreams := []
  pendingPublishStreams := []
  pendingUnpublishStreams := []
  pendingMessages := []
  remoteTrackSourceInfo := []
  remoteStreams := []
  observers := []
  signalingState := .Stable
  dataChannelOpen := none

/-- Post the failure callback (only when the caller supplied one), as
`event_queue_->PostTask` does on every error path. -/
def postFailure (hasF : Bool) (k : ExcKind) : List Output :=
  if hasF then [.eventTask (.failTask k)] else []

/-- Post the success callback when supplied. -/
def postSuccess (hasS : Bool) : List Output :=
  if hasS then [.eventTask .successTask] else []

/-- Model of `ChangeSessionState`: assigns `session_state_` (and logs); the recorded
`stateChange` output makes each assignment visible in the output trace. -/
def changeSessionState (c : Channel) (s : SessionState) : Channel × List Output :=
  ({ c with sessionState := s }, [.stateChange s])

/-- Model of `std::map` membership test on the association-list model. -/
def mapContains (m : List (String × String)) (k : String) : Bool :=
  m.any (fun p => p.1 == k)

/-- Model of `std::map::insert`: inserts only when the key is absent (the existing
entry is kept otherwise). -/
def mapInsert (m : List (String × String)) (k v : String) : List (String × String) :=
  if mapContains m k then m else m ++ [(k, v)]

/-- Model of `std::map` lookup on the association-list model. -/
def mapLookup (m : List (String × String)) (k : String) : Option String :=
  (m.find? (fun p => p.1 == k)).map (fun p => p.2)

/-- Byte-wise lexicographic comparison of character lists, mirroring
`std::string::compare` (for valid UTF-8, byte order and scalar-value order
agree). -/
def charListLt : List Char → List Char → Bool
  | [], [] => false
  | [], _ :: _ => true
  | _ :: _, [] => false
  | a :: as, b :: bs =>
    if a.toNat < b.toNat then true
    else if b.toNat < a.toNat then false
    else charListLt as bs

/-- Model of `a.compare(b) < 0` on `std::string`. -/
def strLt (a b : String) : Bool := charListLt a.data b.data

/-- Model of `HandleRemoteCapability`: the runtime name `FireFox` clears both
capability flags, every other value sets both. -/
def handleRemoteCapability (c : Channel) (runtimeName : String) : Channel :=
  if runtimeName = "FireFox" then
    { c with removeStreamSupported := false, planB := false }
  else
    { c with removeStreamSupported := true, planB := true }

/-- Model of `CreateOffer`: guarded by `is_creating_offer_`.  When the flag is
already set the request is only recorded in `negotiation_needed_`; otherwise
the flag is set, `negotiation_needed_` cleared, and one `create_offer` is
posted to the engine worker. -/
def createOffer (c : Channel) : Channel × List Output :=
  if c.isCreatingOffer then
    ({ c with negotiationNeeded := true }, [])
  else
    ({ c with isCreatingOffer := true, negotiationNeeded := false },
     [.enginePost .createOffer])

/-- Model of `TrackSources` entries built by `DrainPendingStreams` for one pending
publish.  The source labels literally sent are `"mic"` for every audio track
and `"camera"` for every video track: the locals `audio_track_source` /
`video_track_source` computed earlier in the loop (which hold
`"screen-cast"` when `stream->Source()` says so) are never used in the
emitted JSON. -/
def trackSourceEntries (s : LocalStream) : List (String × String) :=
  s.audioTrackIds.map (fun id => (id, "mic")) ++
  s.videoTrackIds.map (fun id => (id, "camera"))

/-- Outputs of `DrainPendingStreams` for one pending publish: the
`chat-track-sources` envelope, then the `add_stream` post. -/
def publishOutputs (s : LocalStream) : List Output :=
  [.signaling (.trackSources (trackSourceEntries s)),
   .enginePost (.addStream s.label)]

/-- Model of `DrainPendingStreams`: send a track-sources envelope and post
`add_stream` for each pending publish, post `remove_stream` for each
pending unpublish, then clear both queues. -/
def drainPendingStreams (c : Channel) : Channel × List Output :=
  ({ c with pendingPublishStreams := [], pendingUnpublishStreams := [] },
   c.pendingPublishStreams.flatMap publishOutputs ++
   c.pendingUnpublishStreams.map (fun s => Output.enginePost (.removeStream s.label)))

/-- Model of `CheckWaitedList`: drain pending streams if either queue is non-empty,
otherwise start an offer when `negotiation_needed_` is set. -/
def checkWaitedList (c : Channel) : Channel × List Output :=
  if !c.pendingPublishStreams.isEmpty || !c.pendingUnpublishStreams.isEmpty then
    drainPendingStreams c
  else if c.negotiationNeeded then
    createOffer c
  else
    (c, [])

/-- Model of `Invite`: valid in `Ready` or `Offered`; sends a best-effort
`chat-closed` (`SendStop` with no callbacks), then the `chat-invitation`
envelope, then transitions to `Offered`. -/
def invite (c : Channel) (hasS hasF : Bool) : Channel × List Output :=
  if c.sessionState ≠ .Ready ∧ c.sessionState ≠ .Offered then
    (c, postFailure hasF .InvalidState)
  else
    let (c1, o1) := changeSessionState c .Offered
    (c1, [.signaling .stop, .signaling .invitation] ++ o1)

/-- Model of `Accept`: valid only in `Pending`; records the callee role, initializes
the peer connection, sends `chat-accepted`, transitions to `Matched`, and
creates the `message` data channel. -/
def accept (c : Channel) (hasS hasF : Bool) : Channel × List Output :=
  if c.sessionState ≠ .Pending then
    (c, postFailure hasF .InvalidState)
  else
    let (c1, o1) := changeSessionState { c with isCaller := false } .Matched
    (c1, [.enginePost .initializePC, .signaling .acceptance] ++ o1 ++
     [.enginePost (.createDataChannel "message")])

/-- Model of `Deny`: valid only in `Pending`; sends `chat-denied` and returns to
`Ready`. -/
def deny (c : Channel) (hasS hasF : Bool) : Channel × List Output :=
  if c.sessionState ≠ .Pending then
    (c, postFailure hasF .InvalidState)
  else
    let (c1, o1) := changeSessionState c .Ready
    (c1, [.signaling .deny] ++ o1)

/-- Model of `TriggerOnStopped`: direct `OnStopped` invocation on every observer. -/
def triggerOnStopped (c : Channel) : List Output :=
  c.observers.map (fun o => Output.observer (.OnStopped o))

/-- Model of `Stop`.  The `Connecting|Connected` arm posts `ClosePeerConnection` and
then falls through (no `break` in the source) into the `Matched` arm, so a
single `chat-closed` is sent and the state becomes `Ready`; the `Offered`
arm additionally fires `OnStopped`; any other state posts `InvalidState`. -/
def stop (c : Channel) (hasS hasF : Bool) : Channel × List Output :=
  match c.sessionState with
  | .Connecting | .Connected =>
    let (c1, o1) := changeSessionState c .Ready
    (c1, [.enginePost .closePC, .signaling .stop] ++ o1 ++ postSuccess hasS)
  | .Matched =>
    let (c1, o1) := changeSessionState c .Ready
    (c1, [.signaling .stop] ++ o1 ++ postSuccess hasS)
  | .Offered =>
    let (c1, o1) := changeSessionState c .Ready
    (c1, [.signaling .stop] ++ o1 ++ triggerOnStopped c1 ++ postSuccess hasS)
  | _ => (c, postFailure hasF .InvalidState)

/-- Model of `OnMessageInvitation`: classify remote capabilities first; in
`Ready|Pending` move to `Pending` and notify `OnInvited`; in `Offered`
apply the lexicographic tie-break `remote_id_.compare(local_id_) > 0`;
otherwise ignore. -/
def onMessageInvitation (c0 : Channel) (runtimeName : String) : Channel × List Output :=
  let c := handleRemoteCapability c0 runtimeName
  match c.sessionState with
  | .Ready | .Pending =>
    let (c1, o1) := changeSessionState c .Pending
    (c1, o1 ++ c1.observers.map (fun o => Output.observer (.OnInvited o)))
  | .Offered =>
    if strLt c.localId c.remoteId then
      let (c1, o1) := changeSessionState c .Matched
      (c1, [.signaling .acceptance] ++ o1)
    else
      (c, [])
  | _ => (c, [])

/-- Model of `OnMessageAcceptance`: only in `Offered|Matched`; move to `Matched`,
notify `OnAccepted`, record the caller role, classify capabilities,
initialize the peer connection, move to `Connecting`, create the data
channel. -/
def onMessageAcceptance (c : Channel) (runtimeName : String) : Channel × List Output :=
  if c.sessionState ≠ .Offered ∧ c.sessionState ≠ .Matched then
    (c, [])
  else
    let (c1, o1) := changeSessionState c .Matched
    let obs := c1.observers.map (fun o => Output.observer (.OnAccepted o))
    let c2 := handleRemoteCapability { c1 with isCaller := true } runtimeName
    let (c3, o3) := changeSessionState c2 .Connecting
    (c3, o1 ++ obs ++ [.enginePost .initializePC] ++ o3 ++
     [.enginePost (.createDataChannel "message")])

/-- Model of `OnMessageStop`: in `Connecting|Connected` close the peer connection
and return to `Ready`; in `Pending|Matched` return to `Ready` and fire
`OnStopped`; otherwise log and ignore. -/
def onMessageStop (c : Channel) : Channel × List Output :=
  match c.sessionState with
  | .Connecting | .Connected =>
    let (c1, o1) := changeSessionState c .Ready
    (c1, [.enginePost .closePC] ++ o1)
  | .Pending | .Matched =>
    let (c1, o1) := changeSessionState c .Ready
    (c1, o1 ++ triggerOnStopped c1)
  | _ => (c, [])

/-- Model of `OnMessageDeny`: notify `OnDenied` on every observer, then
unconditionally set the state to `Ready`. -/
def onMessageDeny (c : Channel) : Channel × List Output :=
  let obs := c.observers.map (fun o => Output.observer (.OnDenied o))
  let (c1, o1) := changeSessionState c .Ready
  (c1, obs ++ o1)

/-- Model of `OnMessageNegotiationNeeded`: record the request and start an offer
immediately when the engine signaling state is `Stable`. -/
def onMessageNegotiationNeeded (c : Channel) : Channel × List Output :=
  let c1 := { c with negotiationNeeded := true }
  if c1.signalingState = .Stable then createOffer c1 else (c1, [])

/-- The decoded `data` of a `chat-signal` envelope.  `sdp` is `none` when
the `sdp` key is absent (the `GetStringFromJsonObject` failure branch). -/
structure SignalPayload where
  ty : String
  sdp : Option String
  sdpMid : String
  sdpMLineIndex : Int
  candidate : String
deriving DecidableEq, Repr

/-- The states in which `OnMessageSignal` rejects incoming signals. -/
def signalBlocked (s : SessionState) : Bool :=
  match s with
  | .Ready => true
  | .Offered => true
  | .Pending => true
  | _ => false

/-- Model of `OnMessageSignal`: reject in `Ready|Offered|Pending`.  For an
offer/answer: an offer received in `Matched` first moves the state to
`Connecting` (before the sdp field is even parsed); then, if the sdp is
present, an offer with a non-`Stable` engine state replaces the single
deferred slot `set_remote_sdp_task_` (dropping its previous content), and
every other description is posted to the engine immediately.  For
`candidates`: post the remote candidate. -/
def onMessageSignal (c : Channel) (p : SignalPayload) : Channel × List Output :=
  if signalBlocked c.sessionState then
    (c, [])
  else if p.ty = "offer" ∨ p.ty = "answer" then
    let (c1, o1) :=
      if p.ty = "offer" ∧ c.sessionState = .Matched then
        changeSessionState c .Connecting
      else
        (c, [])
    match p.sdp with
    | none => (c1, o1)
    | some sdpStr =>
      if p.ty = "offer" ∧ c1.signalingState ≠ .Stable then
        ({ c1 with setRemoteSdpTask := some ⟨p.ty, sdpStr⟩ }, o1)
      else
        (c1, o1 ++ [.enginePost (.setRemoteDescription ⟨p.ty, sdpStr⟩)])
  else if p.ty = "candidates" then
    (c, [.enginePost (.setRemoteIceCandidate p.sdpMid p.sdpMLineIndex p.candidate)])
  else
    (c, [])

/-- Model of `OnMessageTrackSources`: `std::map::insert` each `(id, source)` pair
into `remote_track_source_info_` (so an id that already has an entry keeps
its old source). -/
def onMessageTrackSources (c : Channel) (entries : List (String × String)) : Channel :=
  { c with remoteTrackSourceInfo :=
      entries.foldl (fun m p => mapInsert m p.1 p.2) c.remoteTrackSourceInfo }

/-- Model of `OnSignalingChange`: on `Stable`, post the stored deferred remote
description when one exists (ownership transfers, the slot is cleared) and
otherwise run `CheckWaitedList`; every other new state is ignored.  The
`signalingState` field mirrors the engine state the accessor would now
report. -/
def onSignalingChange (c0 : Channel) (s : SignalingState) : Channel × List Output :=
  let c := { c0 with signalingState := s }
  match s with
  | .Stable =>
    match c.setRemoteSdpTask with
    | some d => ({ c with setRemoteSdpTask := none }, [.enginePost (.setRemoteDescription d)])
    | none => checkWaitedList c
  | _ => (c, [])

/-- Model of `CleanLastPeerConnection`: drop any deferred remote description and
clear `negotiation_needed_` (the `last_disconnect_` reset is wall-clock
state outside this model). -/
def cleanLastPeerConnection (c : Channel) : Channel :=
  { c with setRemoteSdpTask := none, negotiationNeeded := false }

/-- Model of `OnIceConnectionChange`: on connected/completed, fire `OnStarted` when
coming from `Connecting`, set the state to `Connected` (unconditionally)
and run `CheckWaitedList`; on disconnected, start the detached reconnect
timer; on closed, fire `OnStopped` and clean the per-session state. -/
def onIceConnectionChange (c : Channel) (s : IceState) : Channel × List Output :=
  match s with
  | .IceConnected | .IceCompleted =>
    let obs :=
      if c.sessionState = .Connecting then
        c.observers.map (fun o => Output.observer (.OnStarted o))
      else
        []
    let (c1, o1) := changeSessionState c .Connected
    let (c2, o2) := checkWaitedList c1
    (c2, obs ++ o1 ++ o2)
  | .IceDisconnected => (c, [.timerStart])
  | .IceClosed => (cleanLastPeerConnection c, triggerOnStopped c)
  | _ => (c, [])

/-- Model of `OnIceCandidate`: wrap the candidate in a `chat-signal` envelope. -/
def onIceCandidate (c : Channel) (mid : String) (mline : Int) (cand : String) :
    Channel × List Output :=
  (c, [.signaling (.signalCandidates mid mline cand)])

/-- Model of `OnCreateSessionDescriptionSuccess`: post `set_local_description`. -/
def onCreateSessionDescriptionSuccess (c : Channel) (d : Sdp) : Channel × List Output :=
  (c, [.enginePost (.setLocalDescription d)])

/-- Model of `OnSetLocalSessionDescriptionSuccess`: clear `is_creating_offer_` (under
its lock) and send the local description in a `chat-signal` envelope
(`ApplyBitrateSettings` is a base-class engine tweak with no channel-state
effect).  `d` is the engine's `LocalDescription()`. -/
def onSetLocalSessionDescriptionSuccess (c : Channel) (d : Sdp) : Channel × List Output :=
  ({ c with isCreatingOffer := false }, [.signaling (.signalSdp d.ty d.sdp)])

/-- Model of `OnRenegotiationNeeded`: a callee in `Connecting|Connected` forwards a
`chat-negotiation-needed` envelope; a caller starts an offer when `Stable`
and otherwise records `negotiation_needed_`. -/
def onRenegotiationNeeded (c : Channel) : Channel × List Output :=
  if !c.isCaller then
    if c.sessionState = .Connecting ∨ c.sessionState = .Connected then
      (c, [.signaling .negotiationNeeded])
    else
      (c, [])
  else if c.signalingState = .Stable then
    createOffer c
  else
    ({ c with negotiationNeeded := true }, [])

/-- Model of `CheckNullPointer` failure branch followed by the body: `Publish`.
The source posts the `InvalidState` failure when the session is not
`Connected` but then continues (the early-return is missing), so the
published set and the pending publish queue are still mutated; draining
only happens when `Connected` and `Stable`. -/
def publish (c : Channel) (stream : Option LocalStream) (hasS hasF : Bool) :
    Channel × List Output :=
  match stream with
  | none => (c, postFailure hasF .InvalidArgument)
  | some s =>
    let stateOuts :=
      if c.sessionState ≠ .Connected then postFailure hasF .InvalidState else []
    if !c.planB && c.publishedStreams.length + c.pendingPublishStreams.length > 0 then
      (c, stateOuts ++ postFailure hasF .UnsupportedMethod)
    else if c.publishedStreams.contains s.label then
      (c, stateOuts ++ postFailure hasF .InvalidArgument)
    else
      let c1 := { c with publishedStreams := c.publishedStreams ++ [s.label],
                         pendingPublishStreams := c.pendingPublishStreams ++ [s] }
      if c1.sessionState = .Connected ∧ c1.signalingState = .Stable then
        let (c2, o2) := drainPendingStreams c1
        (c2, stateOuts ++ o2)
      else
        (c1, stateOuts)

/-- Model of `Unpublish`: null check, capability check, membership check; then erase
the label from the published set, enqueue the stream for unpublish, post
success, and drain when `Connected` and `Stable`. -/
def unpublish (c : Channel) (stream : Option LocalStream) (hasS hasF : Bool) :
    Channel × List Output :=
  match stream with
  | none => (c, postFailure hasF .InvalidArgument)
  | some s =>
    if !c.removeStreamSupported then
      (c, postFailure hasF .UnsupportedMethod)
    else if !(c.publishedStreams.contains s.label) then
      (c, postFailure hasF .InvalidArgument)
    else
      let c1 := { c with publishedStreams := c.publishedStreams.filter (fun l => l ≠ s.label),
                         pendingUnpublishStreams := c.pendingUnpublishStreams ++ [s] }
      if c1.sessionState = .Connected ∧ c1.signalingState = .Stable then
        let (c2, o2) := drainPendingStreams c1
        (c2, postSuccess hasS ++ o2)
      else
        (c1, postSuccess hasS)

/-- Model of `GetConnectionStats`: a null `on_success` posts `InvalidArgument` (when
`on_failure` is given) before the `Connected`-state check is even reached;
otherwise a non-`Connected` state posts `InvalidState`; otherwise the stats
request is posted to the engine worker. -/
def getConnectionStats (c : Channel) (hasSuccess hasF : Bool) : List Output :=
  if !hasSuccess then
    postFailure hasF .InvalidArgument
  else if c.sessionState ≠ .Connected then
    postFailure hasF .InvalidState
  else
    [.enginePost .getStats]

/-- Model of `DrainPendingMessages`: send every queued text message on the data
channel and clear the queue. -/
def drainPendingMessages (c : Channel) : Channel × List Output :=
  ({ c with pendingMessages := [] }, c.pendingMessages.map Output.dcSend)

/-- Model of `OnDataChannel`: adopt the (possibly replacing) channel provided by the
engine and drain the pending messages. -/
def onDataChannel (c : Channel) (isOpen : Bool) : Channel × List Output :=
  drainPendingMessages { c with dataChannelOpen := some isOpen }

/-- Model of `OnDataChannelStateChange`: drain pending messages once the channel
reports `kOpen`. -/
def onDataChannelStateChange (c : Channel) (isOpen : Bool) : Channel × List Output :=
  let c1 := { c with dataChannelOpen := some isOpen }
  if isOpen then drainPendingMessages c1 else (c1, [])

/-- Model of `OnDataChannelMessage`: a buffer with the binary flag set is dropped
without notifying anyone; otherwise every registered observer receives
`OnData(remote_id_, text)` in registration order. -/
def onDataChannelMessage (c : Channel) (binary : Bool) (payload : String) : List Output :=
  if binary then
    []
  else
    c.observers.map (fun o => Output.observer (.OnData o c.remoteId payload))

/-- Model of `Send`: send immediately on an open data channel; otherwise enqueue the
message and create the data channel when none exists yet; success is always
reported. -/
def send (c : Channel) (msg : String) (hasS hasF : Bool) : Channel × List Output :=
  if c.dataChannelOpen = some true then
    (c, [.dcSend msg] ++ postSuccess hasS)
  else
    let c1 := { c with pendingMessages := c.pendingMessages ++ [msg] }
    let outs :=
      if c.dataChannelOpen = none then [Output.enginePost (.createDataChannel "message")] else []
    (c1, outs ++ postSuccess hasS)

/-- First classified video source of a remote stream: the entry of the
first video track id present in `remote_track_source_info_`, the empty
string when none matches (the locals start as empty `std::string`s). -/
def firstVideoSource (c : Channel) (s : RemoteMediaStream) : String :=
  ((s.videoTrackIds.find? (fun id => mapContains c.remoteTrackSourceInfo id)).bind
    (fun id => mapLookup c.remoteTrackSourceInfo id)).getD ""

/-- Model of `OnAddStream`: classify by the first matched video source; only
`screen-cast` and `camera` yield a `RemoteStream` that is stored and
announced via the event queue; everything else is dropped. -/
def onAddStream (c : Channel) (s : RemoteMediaStream) : Channel × List Output :=
  let vsrc := firstVideoSource c s
  if vsrc = "screen-cast" ∨ vsrc = "camera" then
    ({ c with remoteStreams :=
        if c.remoteStreams.contains s.label then c.remoteStreams
        else c.remoteStreams ++ [s.label] },
     [.eventTask (.streamAdded s.label)])
  else
    (c, [])

/-- Model of `OnRemoveStream`: unknown labels are ignored; otherwise notify
`OnStreamRemoved` for camera/screen-cast classified streams, erase the
stream and all its track ids from the source map. -/
def onRemoveStream (c : Channel) (s : RemoteMediaStream) : Channel × List Output :=
  if !(c.remoteStreams.contains s.label) then
    (c, [])
  else
    let vsrc := firstVideoSource c s
    let outs :=
      if vsrc = "screen-cast" ∨ vsrc = "camera" then
        [Output.eventTask (.streamRemoved s.label)]
      else
        []
    ({ c with remoteStreams := c.remoteStreams.filter (fun l => l ≠ s.label),
              remoteTrackSourceInfo := c.remoteTrackSourceInfo.filter
                (fun p => !(s.audioTrackIds.contains p.1) && !(s.videoTrackIds.contains p.1)) },
     outs)

/-- An incoming signaling message after `OnIncomingSignalingMessage`'s JSON
parsing and `type` dispatch (unparseable or unknown messages are dropped
before reaching any handler). -/
inductive IncomingMsg
  | invitation (runtimeName : String)
  | acceptance (runtimeName : String)
  | deny
  | stop
  | negotiationNeeded
  | signal (p : SignalPayload)
  | trackSources (entries : List (String × String))
deriving DecidableEq, Repr

/-- Dispatch of `OnIncomingSignalingMessage` on the decoded `type`. -/
def onIncomingSignalingMessage (c : Channel) (m : IncomingMsg) : Channel × List Output :=
  match m with
  | .invitation rn => onMessageInvitation c rn
  | .acceptance rn => onMessageAcceptance c rn
  | .deny => onMessageDeny c
  | .stop => onMessageStop c
  | .negotiationNeeded => onMessageNegotiationNeeded c
  | .signal p => onMessageSignal c p
  | .trackSources entries => (onMessageTrackSources c entries, [])

/-- One input to the channel: a public API call, an incoming signaling
message, or an engine/timer callback. -/
inductive Event
  | invite (hasS hasF : Bool)
  | accept (hasS hasF : Bool)
  | deny (hasS hasF : Bool)
  | stopCall (hasS hasF : Bool)
  | publish (s : Option LocalStream) (hasS hasF : Bool)
  | unpublish (s : Option LocalStream) (hasS hasF : Bool)
  | send (msg : String) (hasS hasF : Bool)
  | getStats (hasSuccess hasF : Bool)
  | addObserver (o : Nat)
  | removeObserver (o : Nat)
  | incoming (m : IncomingMsg)
  | signalingChange (s : SignalingState)
  | iceChange (s : IceState)
  | iceCandidate (mid : String) (mline : Int) (cand : String)
  | renegotiationNeeded
  | createSdpSuccess (d : Sdp)
  | createSdpFailure
  | setLocalSuccess (d : Sdp)
  | setLocalFailure
  | setRemoteSuccess
  | setRemoteFailure
  | dataChannelAcquired (isOpen : Bool)
  | dataChannelStateChange (isOpen : Bool)
  | dataChannelMessage (binary : Bool) (payload : String)
  | engineAddStream (s : RemoteMediaStream)
  | engineRemoveStream (s : RemoteMediaStream)
  | reconnectTimeout (expired : Bool)
deriving DecidableEq, Repr

/-- The channel transition function: one handler invocation per event.
`createSdpFailure`, `setLocalFailure` and `setRemoteFailure` invoke `Stop`
with no callbacks; `setRemoteSuccess` only delegates to the base class,
which touches none of this channel's state; an expired reconnect timer
invokes `Stop`. -/
def step (c : Channel) (e : Event) : Channel × List Output :=
  match e with
  | .invite hS hF => invite c hS hF
  | .accept hS hF => accept c hS hF
  | .deny hS hF => deny c hS hF
  | .stopCall hS hF => stop c hS hF
  | .publish s hS hF => publish c s hS hF
  | .unpublish s hS hF => unpublish c s hS hF
  | .send msg hS hF => send c msg hS hF
  | .getStats hS hF => (c, getConnectionStats c hS hF)
  | .addObserver o => ({ c with observers := c.observers ++ [o] }, [])
  | .removeObserver o => ({ c with observers := c.observers.filter (fun x => x ≠ o) }, [])
  | .incoming m => onIncomingSignalingMessage c m
  | .signalingChange s => onSignalingChange c s
  | .iceChange s => onIceConnectionChange c s
  | .iceCandidate mid mline cand => onIceCandidate c mid mline cand
  | .renegotiationNeeded => onRenegotiationNeeded c
  | .createSdpSuccess d => onCreateSessionDescriptionSuccess c d
  | .createSdpFailure => stop c false false
  | .setLocalSuccess d => onSetLocalSessionDescriptionSuccess c d
  | .setLocalFailure => stop c false false
  | .setRemoteSuccess => (c, [])
  | .setRemoteFailure => stop c false false
  | .dataChannelAcquired isOpen => onDataChannel c isOpen
  | .dataChannelStateChange isOpen => onDataChannelStateChange c isOpen
  | .dataChannelMessage binary payload => (c, onDataChannelMessage c binary payload)
  | .engineAddStream s => onAddStream c s
  | .engineRemoveStream s => onRemoveStream c s
  | .reconnectTimeout expired => if expired then stop c false false else (c, [])

/-- Run a sequence of events. -/
def runCh (c : Channel) : List Event → Channel
  | [] => c
  | e :: es => runCh (step c e).1 es

/-- The `session_state_` assignments recorded in an output list, in order. -/
def stateChanges (outs : List Output) : List SessionState :=
  outs.filterMap (fun o => match o with | .stateChange s => some s | _ => none)

/-- The transition table of the specification (§3): `listedEdge a b` holds
exactly when `a → b` is a listed transition. -/
def listedEdge : SessionState → SessionState → Bool
  | .Ready, .Offered => true
  | .Ready, .Pending => true
  | .Offered, .Matched => true
  | .Offered, .Ready => true
  | .Pending, .Matched => true
  | .Pending, .Ready => true
  | .Matched, .Connecting => true
  | .Matched, .Ready => true
  | .Connecting, .Connected => true
  | .Connecting, .Ready => true
  | .Connected, .Ready => true
  | _, _ => false

/-- Whether an event is an ICE connected/completed engine callback. -/
def isIceConnectEvent : Event → Bool
  | .iceChange .IceConnected => true
  | .iceChange .IceCompleted => true
  | _ => false

/-- One state move is acceptable when it is a self-assignment or a listed
edge. -/
def okEdge (a b : SessionState) : Bool :=
  a == b || listedEdge a b

/-- A chain of recorded state assignments starting at `a` stays within
listed edges and self-assignments. -/
def chainListed : SessionState → List SessionState → Bool
  | _, [] => true
  | a, b :: bs => (okEdge a b && chainListed b bs)

/-- Like `chainListed`, but the ICE connected/completed event may
additionally set the state to `Connected` from anywhere. -/
def chainOk (e : Event) : SessionState → List SessionState → Bool
  | _, [] => true
  | a, b :: bs => ((okEdge a b || (isIceConnectEvent e && b == .Connected)) && chainOk e b bs)

/-- Number of `chat-closed` envelopes in an output list. -/
def countStopSig (outs : List Output) : Nat :=
  (outs.filter (fun o => o == .signaling .stop)).length

/-- Whether an output is a direct `OnStopped` observer invocation. -/
def isOnStoppedOut : Output → Bool
  | .observer (.OnStopped _) => true
  | _ => false

/-- Number of `OnStopped` observer invocations in an output list. -/
def countOnStopped (outs : List Output) : Nat :=
  (outs.filter isOnStoppedOut).length

/-- Whether an output is a `set_remote_description` post to the engine
worker. -/
def isSetRemotePost : Output → Bool
  | .enginePost (.setRemoteDescription _) => true
  | _ => false

/-- Whether an output is a `create_offer` post to the engine worker. -/
def isCreateOfferPost : Output → Bool
  | .enginePost .createOffer => true
  | _ => false

/-- Number of outputs satisfying `p`. -/
def countP (p : Output → Bool) (outs : List Output) : Nat :=
  (outs.filter p).length

/-- Number of `set_remote_description` posts in an output list. -/
def setRemotePosts (outs : List Output) : Nat :=
  countP isSetRemotePost outs

/-- Number of `create_offer` posts in an output list. -/
def createOfferPosts (outs : List Output) : Nat :=
  countP isCreateOfferPost outs

/-- Whether the slot `set_remote_sdp_task_` is occupied (1) or empty (0). -/
def slotN (c : Channel) : Nat :=
  if c.setRemoteSdpTask.isSome then 1 else 0

/-- Whether an event stores a deferred remote offer: a `chat-signal` offer
with a present sdp, received in a state that accepts signals while the
engine is not `Stable`. -/
def isStoreEvent (c : Channel) (e : Event) : Bool :=
  match e with
  | .incoming (.signal p) =>
    !signalBlocked c.sessionState && p.ty == "offer" && p.sdp.isSome &&
      !(c.signalingState == .Stable)
  | _ => false

/-- Stores of the deferred slot performed by one step (0 or 1). -/
def storesIn (c : Channel) (e : Event) : Nat :=
  if isStoreEvent c e then 1 else 0

/-- Whether an event is the ICE closed callback (which runs
`CleanLastPeerConnection`). -/
def isIceClosedEvent : Event → Bool
  | .iceChange .IceClosed => true
  | _ => false

/-- Drops of a stored deferred offer performed by one step without posting
it: replacement by a newer offer, or `CleanLastPeerConnection` on ICE
closed. -/
def dropsIn (c : Channel) (e : Event) : Nat :=
  (if isStoreEvent c e && c.setRemoteSdpTask.isSome then 1 else 0) +
  (if isIceClosedEvent e && c.setRemoteSdpTask.isSome then 1 else 0)

/-- Posts of the deferred slot to the engine performed by one step: a
`set_remote_description` post can be emitted by a `SignalingChange` step
only by flushing the deferred slot. -/
def deferredPostsIn (c : Channel) (e : Event) : Nat :=
  match e with
  | .signalingChange _ => setRemotePosts (step c e).2
  | _ => 0

/-- Total deferred-slot posts along a run. -/
def totalDeferredPosts (c : Channel) : List Event → Nat
  | [] => 0
  | e :: es => deferredPostsIn c e + totalDeferredPosts (step c e).1 es

/-- Total deferred-slot stores along a run. -/
def totalStores (c : Channel) : List Event → Nat
  | [] => 0
  | e :: es => storesIn c e + totalStores (step c e).1 es

/-- Total deferred-slot drops along a run. -/
def totalDrops (c : Channel) : List Event → Nat
  | [] => 0
  | e :: es => dropsIn c e + totalDrops (step c e).1 es

/-- Whether an event is the `set_local_description` success callback. -/
def isSetLocalSuccessEvent : Event → Bool
  | .setLocalSuccess _ => true
  | _ => false

/-- Total `create_offer` posts along a run. -/
def totalCreateOfferPosts (c : Channel) : List Event → Nat
  | [] => 0
  | e :: es => createOfferPosts (step c e).2 + totalCreateOfferPosts (step c e).1 es

/-- First source bound to `k` inside a `chat-track-sources` message. -/
def firstSource (entries : List (String × String)) (k : String) : Option String :=
  (entries.find? (fun p => p.1 == k)).map (fun p => p.2)

/-- Modelled from the spec (§4.4 `DrainPendingStreams`): the per-track
sources the specification prescribes for the envelope — `mic` or
`screen-cast` for audio tracks and `camera` or `screen-cast` for video
tracks, `screen-cast` whenever the stream's source info says so.  Stated
only for comparison against `trackSourceEntries`, the entries the source
actually emits. -/
def specTrackSourceEntries (s : LocalStream) : List (String × String) :=
  s.audioTrackIds.map (fun id => (id, if s.audioIsScreenCast then "screen-cast" else "mic")) ++
  s.videoTrackIds.map (fun id => (id, if s.videoIsScreenCast then "screen-cast" else "camera"))

/-- A fresh remote offer payload. -/
def offerPayload : SignalPayload :=
  { ty := "offer", sdp := some "v=0 new", sdpMid := "", sdpMLineIndex := 0,
    candidate := "" }

/-- Concrete stream used to exhibit the `Publish` mutation. -/
def pubStream : LocalStream :=
  { label := "s1", audioTrackIds := ["a1"], videoTrackIds := ["v1"],
    audioIsScreenCast := false, videoIsScreenCast := false }

/-- A channel in `Matched` (both sides agreed, not yet connected). -/
def matchedChannel : Channel :=
  { initChannel "alpha" "beta" with sessionState := .Matched }

/-- Concrete screen-cast stream used to exhibit the track-sources labels. -/
def screenStream : LocalStream :=
  { label := "s1", audioTrackIds := [], videoTrackIds := ["v1"],
    audioIsScreenCast := false, videoIsScreenCast := true }

/-- A channel with a pending screen-cast publish awaiting drain. -/
def screenPendingChannel : Channel :=
  { initChannel "alpha" "beta" with pendingPublishStreams := [screenStream] }

/-- A channel whose source map already binds track `t1` to `camera`. -/
def trackBoundChannel : Channel :=
  { initChannel "alpha" "beta" with remoteTrackSourceInfo := [("t1", "camera")] }

/-- A channel awaiting the remote answer to its own invitation. -/
def offeredChannel : Channel :=
  { initChannel "alpha" "beta" with sessionState := .Offered }

/-- A channel in `Connecting`. -/
def connectingChannel : Channel :=
  { initChannel "alpha" "beta" with sessionState := .Connecting }

/-- A connecting channel holding a deferred remote offer while the engine
is non-`Stable`. -/
def deferredChannel : Channel :=
  { initChannel "alpha" "beta" with
      sessionState := .Connecting,
      signalingState := .HaveLocalOffer,
      setRemoteSdpTask := some { ty := "offer", sdp := "v=0 remote" } }

/-- A channel with an offer creation in flight. -/
def creatingOfferChannel : Channel :=
  { initChannel "alpha" "beta" with
      sessionState := .Connected, isCaller := true, isCreatingOffer := true }

lemma mapContains_isSome (m : List (String × String)) (k : String) :
    mapContains m k = (mapLookup m k).isSome := by
  induction m with
  | nil => rfl
  | cons a as ih =>
    simp only [mapContains, mapLookup, List.any_cons, List.find?_cons] at *
    cases h : (a.1 == k) <;> simp [h, ih]

lemma mapLookup_append_single (m : List (String × String)) (a b k : String) :
    mapLookup (m ++ [(a, b)]) k =
      match mapLookup m k with
      | some v => some v
      | none => if (a == k : Bool) then some b else none := by
  simp only [mapLookup, List.find?_append]
  cases hm : List.find? (fun p => p.1 == k) m with
  | some v => simp [Option.or]
  | none =>
    simp only [Option.or, Option.map_none, List.find?_cons, List.find?_nil]
    cases hek : ((a, b).1 == k) <;> simp_all

lemma lookup_foldl_mapInsert (entries : List (String × String)) :
    ∀ (m : List (String × String)) (k : String),
      mapLookup (entries.foldl (fun acc p => mapInsert acc p.1 p.2) m) k =
        match mapLookup m k with
        | some v => some v
        | none => firstSource entries k := by
  induction entries with
  | nil =>
    intro m k
    cases h : mapLookup m k <;> simp [firstSource, h]
  | cons e es ih =>
    intro m k
    simp only [List.foldl_cons]
    rw [ih (mapInsert m e.1 e.2) k]
    cases h : mapLookup m k with
    | some v =>
      cases hmem : mapContains m e.1 with
      | true => simp [mapInsert, hmem, h]
      | false =>
        simp only [mapInsert, hmem, Bool.false_eq_true, if_false]
        rw [mapLookup_append_single m e.1 e.2 k, h]
    | none =>
      cases hmem : mapContains m e.1 with
      | true =>
        have hek : (e.1 == k) = false := by
          cases hek : (e.1 == k)
          · rfl
          · have hke : e.1 = k := eq_of_beq hek
            rw [hke, mapContains_isSome, h] at hmem
            simp at hmem
        simp [mapInsert, hmem, h, firstSource, List.find?_cons, hek]
      | false =>
        simp only [mapInsert, hmem, Bool.false_eq_true, if_false]
        rw [mapLookup_append_single m e.1 e.2 k, h]
        simp only [firstSource, List.find?_cons]
        cases hek : (e.1 == k) <;> simp [hek, firstSource]

/-- Claim C5 (code bug): `Publish` on a non-`Connected` channel does post
`InvalidState` through the event executor and sends no `chat-track-sources`
envelope, but — the early return being missing in the source — it still
inserts the stream's label into the published set and enqueues the stream
in the pending publish queue. -/
theorem c5_publish_not_connected_mutates :
    (publish matchedChannel (some pubStream) false true).2 =
      [.eventTask (.failTask .InvalidState)] ∧
    (publish matchedChannel (some pubStream) false true).1.publishedStreams = ["s1"] ∧
    (publish matchedChannel (some pubStream) false true).1.pendingPublishStreams =
      [pubStream] ∧
    matchedChannel.publishedStreams = [] ∧
    matchedChannel.pendingPublishStreams = [] := by
  decide

/-- Claim C6 (code bug): draining a pending publish whose source info says
screen-cast emits the `chat-track-sources` envelope right before the
`add_stream` post, listing every track id — but with the literal label
`camera` (resp. `mic`), not the determined `screen-cast` source the
specification prescribes (`specTrackSourceEntries`). -/
theorem c6_track_sources_labels :
    (drainPendingStreams screenPendingChannel).2 =
      [.signaling (.trackSources [("v1", "camera")]),
       .enginePost (.addStream "s1")] ∧
    specTrackSourceEntries screenStream = [("v1", "screen-cast")] ∧
    trackSourceEntries screenStream ≠ specTrackSourceEntries screenStream := by
  decide

/-- Claim C7, counterexample: a `chat-track-sources` message rebinding an
id that already has an entry does not overwrite it — after processing
`[(t1, screen-cast)]` on a map holding `(t1, camera)` the map still binds
`t1` to `camera`. -/
theorem c7_overwrite_counterexample :
    mapLookup (onMessageTrackSources trackBoundChannel
        [("t1", "screen-cast")]).remoteTrackSourceInfo "t1" = some "camera" ∧
    ("camera" : String) ≠ "screen-cast" := by
  decide

/-- Claim C7 as amended: each `(id, source)` pair of a `chat-track-sources`
message is inserted into the remote track-source map only when the id has
no entry yet; after processing, an id that already had an entry keeps its
old source, and an id that had none is bound to the source of its first
occurrence in the message. -/
theorem c7_track_sources_merge_amended (c : Channel)
    (entries : List (String × String)) (k : String) :
    mapLookup (onMessageTrackSources c entries).remoteTrackSourceInfo k =
      match mapLookup c.remoteTrackSourceInfo k with
      | some v => some v
      | none => firstSource entries k := by
  simp only [onMessageTrackSources]
  exact lookup_foldl_mapInsert entries c.remoteTrackSourceInfo k

@[simp] lemma stateChanges_nil : stateChanges ([] : List Output) = [] := rfl

@[simp] lemma stateChanges_cons_signaling (m : SigMsg) (l : List Output) :
    stateChanges (Output.signaling m :: l) = stateChanges l := by
  simp [stateChanges]

@[simp] lemma stateChanges_cons_enginePost (m : EngineMsg) (l : List Output) :
    stateChanges (Output.enginePost m :: l) = stateChanges l := by
  simp [stateChanges]

@[simp] lemma stateChanges_cons_eventTask (t : EvTask) (l : List Output) :
    stateChanges (Output.eventTask t :: l) = stateChanges l := by
  simp [stateChanges]

@[simp] lemma stateChanges_cons_observer (n : ObsEvent) (l : List Output) :
    stateChanges (Output.observer n :: l) = stateChanges l := by
  simp [stateChanges]

@[simp] lemma stateChanges_cons_dcSend (s : String) (l : List Output) :
    stateChanges (Output.dcSend s :: l) = stateChanges l := by
  simp [stateChanges]

@[simp] lemma stateChanges_cons_timerStart (l : List Output) :
    stateChanges (Output.timerStart :: l) = stateChanges l := by
  simp [stateChanges]

@[simp] lemma stateChanges_cons_stateChange (s : SessionState) (l : List Output) :
    stateChanges (Output.stateChange s :: l) = s :: stateChanges l := by
  simp [stateChanges]

@[simp] lemma stateChanges_append (a b : List Output) :
    stateChanges (a ++ b) = stateChanges a ++ stateChanges b := by
  simp [stateChanges, List.filterMap_append]

@[simp] lemma stateChanges_obsMap (l : List Nat) (g : Nat → ObsEvent) :
    stateChanges (l.map (fun o => Output.observer (g o))) = [] := by
  induction l with
  | nil => rfl
  | cons x xs ih => simpa using ih

@[simp] lemma stateChanges_dcSendMap (l : List String) :
    stateChanges (l.map Output.dcSend) = [] := by
  induction l with
  | nil => rfl
  | cons x xs ih => simpa using ih

@[simp] lemma stateChanges_postSuccess (hS : Bool) :
    stateChanges (postSuccess hS) = [] := by
  cases hS <;> simp [postSuccess]

@[simp] lemma stateChanges_postFailure (hF : Bool) (k : ExcKind) :
    stateChanges (postFailure hF k) = [] := by
  cases hF <;> simp [postFailure]

@[simp] lemma stateChanges_triggerOnStopped (c : Channel) :
    stateChanges (triggerOnStopped c) = [] := by
  simp [triggerOnStopped]

@[simp] lemma stateChanges_pubFlat (l : List LocalStream) :
    stateChanges (l.flatMap publishOutputs) = [] := by
  induction l with
  | nil => rfl
  | cons x xs ih => simpa [publishOutputs] using ih

@[simp] lemma stateChanges_removeMap (l : List LocalStream) :
    stateChanges (l.map (fun s => Output.enginePost (.removeStream s.label))) = [] := by
  induction l with
  | nil => rfl
  | cons x xs ih => simpa using ih

@[simp] lemma stateChanges_drain (c : Channel) :
    stateChanges (drainPendingStreams c).2 = [] := by
  simp [drainPendingStreams]

@[simp] lemma stateChanges_createOffer (c : Channel) :
    stateChanges (createOffer c).2 = [] := by
  simp only [createOffer]
  split <;> simp

@[simp] lemma stateChanges_checkWaitedList (c : Channel) :
    stateChanges (checkWaitedList c).2 = [] := by
  simp only [checkWaitedList]
  split
  · simp
  · split <;> simp

@[simp] lemma chainListed_nil (a : SessionState) : chainListed a [] = true := rfl

@[simp] lemma chainOk_nil (e : Event) (a : SessionState) : chainOk e a [] = true := rfl

@[simp] lemma signalBlocked_matched : signalBlocked SessionState.Matched = false := rfl

@[simp] lemma signalBlocked_connecting :
    signalBlocked SessionState.Connecting = false := rfl

@[simp] lemma signalBlocked_connected :
    signalBlocked SessionState.Connected = false := rfl

lemma chainOk_of_chainListed (e : Event) :
    ∀ (a : SessionState) (l : List SessionState),
      chainListed a l = true → chainOk e a l = true := by
  intro a l
  induction l generalizing a with
  | nil => intro _; rfl
  | cons b bs ih =>
    intro h
    simp only [chainListed, Bool.and_eq_true] at h
    simp [chainOk, h.1, ih b h.2]

lemma chain_stop (c : Channel) (hS hF : Bool) :
    chainListed c.sessionState (stateChanges (stop c hS hF).2) = true := by
  cases h : c.sessionState <;>
    simp [stop, h, changeSessionState, chainListed, okEdge, listedEdge]

lemma chain_invite (c : Channel) (hS hF : Bool) :
    chainListed c.sessionState (stateChanges (invite c hS hF).2) = true := by
  by_cases h : c.sessionState ≠ .Ready ∧ c.sessionState ≠ .Offered
  · simp [invite, h]
  · rcases not_and_or.mp h with h1 | h1 <;> rw [not_not] at h1 <;>
      simp [invite, h1, changeSessionState, chainListed, okEdge, listedEdge]

lemma chain_accept (c : Channel) (hS hF : Bool) :
    chainListed c.sessionState (stateChanges (accept c hS hF).2) = true := by
  by_cases h : c.sessionState = .Pending
  · simp [accept, h, changeSessionState, chainListed, okEdge, listedEdge]
  · simp [accept, h]

lemma chain_deny (c : Channel) (hS hF : Bool) :
    chainListed c.sessionState (stateChanges (deny c hS hF).2) = true := by
  by_cases h : c.sessionState = .Pending
  · simp [deny, h, changeSessionState, chainListed, okEdge, listedEdge]
  · simp [deny, h]

lemma sessionState_handleRemoteCapability (c : Channel) (rn : String) :
    (handleRemoteCapability c rn).sessionState = c.sessionState := by
  by_cases h : rn = "FireFox" <;> simp [handleRemoteCapability, h]

lemma chain_onMessageInvitation (c : Channel) (rn : String) :
    chainListed c.sessionState (stateChanges (onMessageInvitation c rn).2) = true := by
  by_cases hfr : rn = "FireFox" <;>
    cases h : c.sessionState <;>
      simp [onMessageInvitation, handleRemoteCapability, hfr, h, changeSessionState,
        chainListed, okEdge, listedEdge] <;>
      split <;> simp [chainListed, okEdge, listedEdge, changeSessionState]

lemma chain_onMessageAcceptance (c : Channel) (rn : String) :
    chainListed c.sessionState (stateChanges (onMessageAcceptance c rn).2) = true := by
  by_cases h : c.sessionState ≠ .Offered ∧ c.sessionState ≠ .Matched
  · simp [onMessageAcceptance, h]
  · rcases not_and_or.mp h with h1 | h1 <;> rw [not_not] at h1 <;>
      by_cases hfr : rn = "FireFox" <;>
        simp [onMessageAcceptance, h1, handleRemoteCapability, hfr, changeSessionState,
          chainListed, okEdge, listedEdge]

lemma chain_onMessageStop (c : Channel) :
    chainListed c.sessionState (stateChanges (onMessageStop c).2) = true := by
  cases h : c.sessionState <;>
    simp [onMessageStop, h, changeSessionState, chainListed, okEdge, listedEdge]

lemma chain_onMessageDeny (c : Channel) :
    chainListed c.sessionState (stateChanges (onMessageDeny c).2) = true := by
  cases h : c.sessionState <;>
    simp [onMessageDeny, h, changeSessionState, chainListed, okEdge, listedEdge]

lemma chain_onMessageSignal (c : Channel) (p : SignalPayload) :
    chainListed c.sessionState (stateChanges (onMessageSignal c p).2) = true := by
  by_cases hb : signalBlocked c.sessionState = true
  · simp [onMessageSignal, hb]
  · by_cases hty : p.ty = "offer"
    · by_cases hmm : c.sessionState = .Matched <;>
        cases hs : p.sdp <;>
          by_cases hst : c.signalingState = SignalingState.Stable <;>
            simp [onMessageSignal, hb, hty, hmm, hs, hst, changeSessionState,
              chainListed, okEdge, listedEdge]
    · by_cases ha : p.ty = "answer"
      · cases hs : p.sdp <;> simp [onMessageSignal, hb, hty, ha, hs]
      · by_cases hc : p.ty = "candidates" <;> simp [onMessageSignal, hb, hty, ha, hc]

@[simp] lemma stateChanges_getConnectionStats (c : Channel) (hS hF : Bool) :
    stateChanges (getConnectionStats c hS hF) = [] := by
  unfold getConnectionStats
  repeat' split
  all_goals simp_all
  all_goals (repeat' split)
  all_goals simp_all

@[simp] lemma stateChanges_publish (c : Channel) (s : Option LocalStream) (hS hF : Bool) :
    stateChanges (publish c s hS hF).2 = [] := by
  unfold publish
  repeat' split
  all_goals simp_all
  all_goals (repeat' split)
  all_goals simp_all

@[simp] lemma stateChanges_unpublish (c : Channel) (s : Option LocalStream) (hS hF : Bool) :
    stateChanges (unpublish c s hS hF).2 = [] := by
  unfold unpublish
  repeat' split
  all_goals simp_all
  all_goals (repeat' split)
  all_goals simp_all

@[simp] lemma stateChanges_send (c : Channel) (msg : String) (hS hF : Bool) :
    stateChanges (send c msg hS hF).2 = [] := by
  unfold send
  repeat' split
  all_goals simp_all
  all_goals (repeat' split)
  all_goals simp_all

@[simp] lemma stateChanges_onSignalingChange (c : Channel) (s : SignalingState) :
    stateChanges (onSignalingChange c s).2 = [] := by
  unfold onSignalingChange
  repeat' split
  all_goals simp_all
  all_goals (repeat' split)
  all_goals simp_all

@[simp] lemma stateChanges_negotiationHandlers (c : Channel) :
    stateChanges (onMessageNegotiationNeeded c).2 = [] ∧
    stateChanges (onRenegotiationNeeded c).2 = [] := by
  constructor
  · unfold onMessageNegotiationNeeded
    repeat' split
    all_goals simp_all
    all_goals (repeat' split)
    all_goals simp_all
  · unfold onRenegotiationNeeded
    repeat' split
    all_goals simp_all
    all_goals (repeat' split)
    all_goals simp_all

@[simp] lemma stateChanges_onAddStream (c : Channel) (s : RemoteMediaStream) :
    stateChanges (onAddStream c s).2 = [] := by
  unfold onAddStream
  repeat' split
  all_goals simp_all
  all_goals (repeat' split)
  all_goals simp_all

@[simp] lemma stateChanges_onRemoveStream (c : Channel) (s : RemoteMediaStream) :
    stateChanges (onRemoveStream c s).2 = [] := by
  unfold onRemoveStream
  repeat' split
  all_goals simp_all
  all_goals (repeat' split)
  all_goals simp_all

/-- Claim C1, counterexample: an ICE connected engine event applied to a
channel sitting in `Ready` moves the session state straight to
`Connected` — an edge absent from the transition table of §3. -/
theorem c1_unlisted_edge_counterexample :
    (initChannel "alpha" "beta").sessionState = .Ready ∧
    (step (initChannel "alpha" "beta") (.iceChange .IceConnected)).1.sessionState =
      .Connected ∧
    stateChanges (step (initChannel "alpha" "beta") (.iceChange .IceConnected)).2 =
      [.Connected] ∧
    listedEdge .Ready .Connected = false := by
  decide

/-- Claim C1 as amended: for every channel state and every input event,
each `session_state_` assignment performed by the handler is a
self-assignment or a listed transition of §3, with one exception: the ICE
connected/completed engine event sets the state to `Connected` from
whatever state the channel is in (which also yields the unlisted edges
`Ready|Offered|Pending → Connected`). -/
theorem c1_session_transitions_amended (c : Channel) (e : Event) :
    chainOk e c.sessionState (stateChanges (step c e).2) = true := by
  cases e with
  | invite hS hF => exact chainOk_of_chainListed _ _ _ (chain_invite c hS hF)
  | accept hS hF => exact chainOk_of_chainListed _ _ _ (chain_accept c hS hF)
  | deny hS hF => exact chainOk_of_chainListed _ _ _ (chain_deny c hS hF)
  | stopCall hS hF => exact chainOk_of_chainListed _ _ _ (chain_stop c hS hF)
  | publish s hS hF => simp [step]
  | unpublish s hS hF => simp [step]
  | send msg hS hF => simp [step]
  | getStats hS hF => simp [step]
  | addObserver o => simp [step]
  | removeObserver o => simp [step]
  | incoming m =>
    cases m with
    | invitation rn => exact chainOk_of_chainListed _ _ _ (chain_onMessageInvitation c rn)
    | acceptance rn => exact chainOk_of_chainListed _ _ _ (chain_onMessageAcceptance c rn)
    | deny => exact chainOk_of_chainListed _ _ _ (chain_onMessageDeny c)
    | stop => exact chainOk_of_chainListed _ _ _ (chain_onMessageStop c)
    | negotiationNeeded =>
      simp [step, onIncomingSignalingMessage, (stateChanges_negotiationHandlers c).1]
    | signal p => exact chainOk_of_chainListed _ _ _ (chain_onMessageSignal c p)
    | trackSources entries => simp [step, onIncomingSignalingMessage]
  | signalingChange s => simp [step]
  | iceChange s =>
    cases s with
    | IceConnected =>
      by_cases hcn : c.sessionState = .Connecting <;>
        simp [step, onIceConnectionChange, changeSessionState, hcn, chainOk,
          isIceConnectEvent]
    | IceCompleted =>
      by_cases hcn : c.sessionState = .Connecting <;>
        simp [step, onIceConnectionChange, changeSessionState, hcn, chainOk,
          isIceConnectEvent]
    | IceDisconnected => simp [step, onIceConnectionChange, stateChanges]
    | IceClosed => simp [step, onIceConnectionChange]
    | IceNew => simp [step, onIceConnectionChange]
    | IceChecking => simp [step, onIceConnectionChange]
    | IceFailed => simp [step, onIceConnectionChange]
  | iceCandidate mid mline cand => simp [step, onIceCandidate, stateChanges]
  | renegotiationNeeded =>
    simp [step, (stateChanges_negotiationHandlers c).2]
  | createSdpSuccess d => simp [step, onCreateSessionDescriptionSuccess, stateChanges]
  | createSdpFailure => exact chainOk_of_chainListed _ _ _ (chain_stop c false false)
  | setLocalSuccess d => simp [step, onSetLocalSessionDescriptionSuccess, stateChanges]
  | setLocalFailure => exact chainOk_of_chainListed _ _ _ (chain_stop c false false)
  | setRemoteSuccess => simp [step]
  | setRemoteFailure => exact chainOk_of_chainListed _ _ _ (chain_stop c false false)
  | dataChannelAcquired isOpen => simp [step, onDataChannel, drainPendingMessages]
  | dataChannelStateChange isOpen =>
    cases isOpen <;> simp [step, onDataChannelStateChange, drainPendingMessages]
  | dataChannelMessage binary payload =>
    cases binary <;> simp [step, onDataChannelMessage]
  | engineAddStream s => simp [step]
  | engineRemoveStream s => simp [step]
  | reconnectTimeout expired =>
    cases expired with
    | false => simp [step]
    | true => exact chainOk_of_chainListed _ _ _ (chain_stop c false false)

@[simp] lemma countP_nil (p : Output → Bool) : countP p [] = 0 := rfl

@[simp] lemma countP_cons (p : Output → Bool) (o : Output) (l : List Output) :
    countP p (o :: l) = (if p o then 1 else 0) + countP p l := by
  by_cases h : p o <;> simp [countP, List.filter_cons, h, Nat.add_comm]

@[simp] lemma countP_append (p : Output → Bool) (a b : List Output) :
    countP p (a ++ b) = countP p a + countP p b := by
  simp [countP, List.filter_append]

@[simp] lemma createOfferPosts_def (outs : List Output) :
    createOfferPosts outs = countP isCreateOfferPost outs := rfl

@[simp] lemma setRemotePosts_def (outs : List Output) :
    setRemotePosts outs = countP isSetRemotePost outs := rfl

lemma countP_map_zero {α : Type} (p : Output → Bool) (f : α → Output) (l : List α)
    (h : ∀ x, p (f x) = false) : countP p (l.map f) = 0 := by
  induction l with
  | nil => rfl
  | cons x xs ih => rw [List.map_cons, countP_cons, h x]; simpa using ih

@[simp] lemma countP_co_obsMap (l : List Nat) (g : Nat → ObsEvent) :
    countP isCreateOfferPost (l.map (fun o => Output.observer (g o))) = 0 :=
  countP_map_zero _ _ l (fun _ => rfl)

@[simp] lemma countP_co_postSuccess (hS : Bool) :
    countP isCreateOfferPost (postSuccess hS) = 0 := by
  cases hS <;> simp [postSuccess, isCreateOfferPost]

@[simp] lemma countP_co_postFailure (hF : Bool) (k : ExcKind) :
    countP isCreateOfferPost (postFailure hF k) = 0 := by
  cases hF <;> simp [postFailure, isCreateOfferPost]

@[simp] lemma countP_co_triggerOnStopped (c : Channel) :
    countP isCreateOfferPost (triggerOnStopped c) = 0 :=
  countP_map_zero _ _ _ (fun _ => rfl)

@[simp] lemma countP_co_dcSendMap (l : List String) :
    countP isCreateOfferPost (l.map Output.dcSend) = 0 :=
  countP_map_zero _ _ l (fun _ => rfl)

@[simp] lemma countP_co_pubFlat (l : List LocalStream) :
    countP isCreateOfferPost (l.flatMap publishOutputs) = 0 := by
  induction l with
  | nil => rfl
  | cons x xs ih => simpa [publishOutputs, isCreateOfferPost] using ih

@[simp] lemma countP_co_removeMap (l : List LocalStream) :
    countP isCreateOfferPost
      (l.map (fun s => Output.enginePost (.removeStream s.label))) = 0 :=
  countP_map_zero _ _ l (fun _ => rfl)

@[simp] lemma countP_co_drain (c : Channel) :
    countP isCreateOfferPost (drainPendingStreams c).2 = 0 := by
  simp [drainPendingStreams]

@[simp] lemma countP_sr_obsMap (l : List Nat) (g : Nat → ObsEvent) :
    countP isSetRemotePost (l.map (fun o => Output.observer (g o))) = 0 :=
  countP_map_zero _ _ l (fun _ => rfl)

@[simp] lemma countP_sr_postSuccess (hS : Bool) :
    countP isSetRemotePost (postSuccess hS) = 0 := by
  cases hS <;> simp [postSuccess, isSetRemotePost]

@[simp] lemma countP_sr_postFailure (hF : Bool) (k : ExcKind) :
    countP isSetRemotePost (postFailure hF k) = 0 := by
  cases hF <;> simp [postFailure, isSetRemotePost]

@[simp] lemma countP_sr_triggerOnStopped (c : Channel) :
    countP isSetRemotePost (triggerOnStopped c) = 0 :=
  countP_map_zero _ _ _ (fun _ => rfl)

@[simp] lemma countP_sr_dcSendMap (l : List String) :
    countP isSetRemotePost (l.map Output.dcSend) = 0 :=
  countP_map_zero _ _ l (fun _ => rfl)

@[simp] lemma countP_sr_pubFlat (l : List LocalStream) :
    countP isSetRemotePost (l.flatMap publishOutputs) = 0 := by
  induction l with
  | nil => rfl
  | cons x xs ih => simpa [publishOutputs, isSetRemotePost] using ih

@[simp] lemma countP_sr_removeMap (l : List LocalStream) :
    countP isSetRemotePost
      (l.map (fun s => Output.enginePost (.removeStream s.label))) = 0 :=
  countP_map_zero _ _ l (fun _ => rfl)

@[simp] lemma countP_sr_drain (c : Channel) :
    countP isSetRemotePost (drainPendingStreams c).2 = 0 := by
  simp [drainPendingStreams]

@[simp] lemma countP_sr_createOffer (c : Channel) :
    countP isSetRemotePost (createOffer c).2 = 0 := by
  unfold createOffer
  split <;> simp [isSetRemotePost]

@[simp] lemma countP_sr_checkWaitedList (c : Channel) :
    countP isSetRemotePost (checkWaitedList c).2 = 0 := by
  unfold checkWaitedList
  repeat' split
  all_goals simp

lemma createOffer_flag_already (c : Channel) (hc : c.isCreatingOffer = true) :
    createOffer c = ({ c with negotiationNeeded := true }, []) := by
  simp [createOffer, hc]

lemma checkWaitedList_flag (c : Channel) (hc : c.isCreatingOffer = true) :
    (checkWaitedList c).1.isCreatingOffer = true ∧
    createOfferPosts (checkWaitedList c).2 = 0 := by
  unfold checkWaitedList
  repeat' split
  all_goals simp_all [drainPendingStreams, createOffer_flag_already]

lemma stop_flag (c : Channel) (hS hF : Bool) :
    (stop c hS hF).1.isCreatingOffer = c.isCreatingOffer ∧
    createOfferPosts (stop c hS hF).2 = 0 := by
  cases h : c.sessionState <;>
    simp [stop, h, changeSessionState, createOfferPosts, isCreateOfferPost]

lemma step_flag_preserved (c : Channel) (e : Event)
    (hc : c.isCreatingOffer = true) (he : isSetLocalSuccessEvent e = false) :
    (step c e).1.isCreatingOffer = true ∧ createOfferPosts (step c e).2 = 0 := by
  cases e <;>
    first
    | (simp only [isSetLocalSuccessEvent] at he; exact Bool.noConfusion he)
    | (simp only [step, invite, accept, deny, stop, publish, unpublish, send,
        getConnectionStats, onIncomingSignalingMessage, onMessageInvitation,
        onMessageAcceptance, onMessageDeny, onMessageStop, onMessageNegotiationNeeded,
        onMessageSignal, onMessageTrackSources, onSignalingChange, onIceConnectionChange,
        onIceCandidate, onRenegotiationNeeded, onCreateSessionDescriptionSuccess,
        onDataChannel, onDataChannelStateChange, onDataChannelMessage, onAddStream,
        onRemoveStream, handleRemoteCapability, changeSessionState, checkWaitedList,
        createOffer, drainPendingStreams, drainPendingMessages, cleanLastPeerConnection,
        triggerOnStopped]
       repeat' split
       all_goals simp_all [isCreateOfferPost, publishOutputs])

lemma run_no_create_offer_posts (c : Channel) (es : List Event)
    (hc : c.isCreatingOffer = true)
    (he : ∀ e ∈ es, isSetLocalSuccessEvent e = false) :
    totalCreateOfferPosts c es = 0 ∧ (runCh c es).isCreatingOffer = true := by
  induction es generalizing c with
  | nil => exact ⟨rfl, hc⟩
  | cons e es ih =>
    have h1 := step_flag_preserved c e hc (he e (by simp))
    have h2 := ih (step c e).1 h1.1 (fun x hx => he x (by simp [hx]))
    have h12 : countP isCreateOfferPost (step c e).2 = 0 := by simpa using h1.2
    exact ⟨by simp [totalCreateOfferPosts, h12, h2.1], by simpa [runCh] using h2.2⟩

/-- Claim C4: `CreateOffer` with `is_creating_offer_` already set only
records `negotiation_needed_` and posts nothing; otherwise it sets the
flag, clears `negotiation_needed_`, and posts exactly one `create_offer`.
The flag is cleared by no event other than the `set_local_description`
success callback, and while it is set no further `create_offer` is ever
posted along any run — so a second request can only start after the first
one's local description has been applied. -/
theorem c4_create_offer_guard :
    (∀ c : Channel, c.isCreatingOffer = true →
      createOffer c = ({ c with negotiationNeeded := true }, [])) ∧
    (∀ c : Channel, c.isCreatingOffer = false →
      createOffer c =
        ({ c with isCreatingOffer := true, negotiationNeeded := false },
         [.enginePost .createOffer])) ∧
    (∀ (c : Channel) (e : Event), c.isCreatingOffer = true →
      (step c e).1.isCreatingOffer = false → isSetLocalSuccessEvent e = true) ∧
    (∀ (c : Channel) (e : Event), c.isCreatingOffer = true →
      isSetLocalSuccessEvent e = false →
      (step c e).1.isCreatingOffer = true ∧ createOfferPosts (step c e).2 = 0) ∧
    (∀ (c : Channel) (es : List Event), c.isCreatingOffer = true →
      (∀ e ∈ es, isSetLocalSuccessEvent e = false) →
      totalCreateOfferPosts c es = 0) := by
  refine ⟨fun c hc => createOffer_flag_already c hc,
    fun c hc => by simp [createOffer, hc],
    fun c e hc hdrop => ?_,
    fun c e hc he => step_flag_preserved c e hc he,
    fun c es hc he => (run_no_create_offer_posts c es hc he).1⟩
  by_cases he : isSetLocalSuccessEvent e = true
  · exact he
  · have h := step_flag_preserved c e hc (by simpa using he)
    rw [h.1] at hdrop
    exact absurd hdrop (by simp)

/-- Claim C4, witness: with the flag set, `CreateOffer` only records the
request; on a fresh channel it posts one offer; a run of renegotiation
events with the flag set posts no offer. -/
theorem c4_create_offer_guard_witness :
    createOffer creatingOfferChannel =
      ({ creatingOfferChannel with negotiationNeeded := true }, []) ∧
    createOffer (initChannel "alpha" "beta") =
      ({ initChannel "alpha" "beta" with
          isCreatingOffer := true, negotiationNeeded := false },
       [.enginePost .createOffer]) ∧
    totalCreateOfferPosts creatingOfferChannel
      [.renegotiationNeeded, .signalingChange .Stable, .incoming .negotiationNeeded] = 0 :=
  ⟨c4_create_offer_guard.1 creatingOfferChannel rfl,
   c4_create_offer_guard.2.1 (initChannel "alpha" "beta") rfl,
   c4_create_offer_guard.2.2.2.2 creatingOfferChannel _ rfl (by decide)⟩

lemma checkWaitedList_slot (c : Channel) :
    (checkWaitedList c).1.setRemoteSdpTask = c.setRemoteSdpTask := by
  unfold checkWaitedList createOffer drainPendingStreams
  repeat' split
  all_goals simp_all
  all_goals (repeat' split)
  all_goals simp_all

lemma slot_stop (c : Channel) (hS hF : Bool) :
    (stop c hS hF).1.setRemoteSdpTask = c.setRemoteSdpTask := by
  cases h : c.sessionState <;> simp [stop, h, changeSessionState]

lemma slot_invite (c : Channel) (hS hF : Bool) :
    (invite c hS hF).1.setRemoteSdpTask = c.setRemoteSdpTask := by
  by_cases h : c.sessionState ≠ .Ready ∧ c.sessionState ≠ .Offered
  · simp [invite, h]
  · rcases not_and_or.mp h with h1 | h1 <;> rw [not_not] at h1 <;>
      simp [invite, h1, changeSessionState]

lemma slot_accept (c : Channel) (hS hF : Bool) :
    (accept c hS hF).1.setRemoteSdpTask = c.setRemoteSdpTask := by
  by_cases h : c.sessionState = .Pending <;> simp [accept, h, changeSessionState]

lemma slot_deny (c : Channel) (hS hF : Bool) :
    (deny c hS hF).1.setRemoteSdpTask = c.setRemoteSdpTask := by
  by_cases h : c.sessionState = .Pending <;> simp [deny, h, changeSessionState]

lemma slot_onMessageInvitation (c : Channel) (rn : String) :
    (onMessageInvitation c rn).1.setRemoteSdpTask = c.setRemoteSdpTask := by
  by_cases hfr : rn = "FireFox" <;>
    cases h : c.sessionState <;>
      simp [onMessageInvitation, handleRemoteCapability, hfr, h, changeSessionState] <;>
      split <;> simp [changeSessionState]

lemma slot_onMessageAcceptance (c : Channel) (rn : String) :
    (onMessageAcceptance c rn).1.setRemoteSdpTask = c.setRemoteSdpTask := by
  by_cases h : c.sessionState ≠ .Offered ∧ c.sessionState ≠ .Matched
  · simp [onMessageAcceptance, h]
  · rcases not_and_or.mp h with h1 | h1 <;> rw [not_not] at h1 <;>
      by_cases hfr : rn = "FireFox" <;>
        simp [onMessageAcceptance, h1, handleRemoteCapability, hfr, changeSessionState]

lemma slot_onMessageStop (c : Channel) :
    (onMessageStop c).1.setRemoteSdpTask = c.setRemoteSdpTask := by
  cases h : c.sessionState <;> simp [onMessageStop, h, changeSessionState]

lemma slot_onMessageDeny (c : Channel) :
    (onMessageDeny c).1.setRemoteSdpTask = c.setRemoteSdpTask := by
  cases h : c.sessionState <;> simp [onMessageDeny, h, changeSessionState]

lemma slot_publish (c : Channel) (s : Option LocalStream) (hS hF : Bool) :
    (publish c s hS hF).1.setRemoteSdpTask = c.setRemoteSdpTask := by
  unfold publish drainPendingStreams
  repeat' split
  all_goals simp_all
  all_goals (repeat' split)
  all_goals simp_all

lemma slot_unpublish (c : Channel) (s : Option LocalStream) (hS hF : Bool) :
    (unpublish c s hS hF).1.setRemoteSdpTask = c.setRemoteSdpTask := by
  unfold unpublish drainPendingStreams
  repeat' split
  all_goals simp_all
  all_goals (repeat' split)
  all_goals simp_all

lemma slot_send (c : Channel) (msg : String) (hS hF : Bool) :
    (send c msg hS hF).1.setRemoteSdpTask = c.setRemoteSdpTask := by
  unfold send
  repeat' split
  all_goals simp_all
  all_goals (repeat' split)
  all_goals simp_all

lemma slot_onRenegotiationNeeded (c : Channel) :
    (onRenegotiationNeeded c).1.setRemoteSdpTask = c.setRemoteSdpTask := by
  unfold onRenegotiationNeeded createOffer
  repeat' split
  all_goals simp_all
  all_goals (repeat' split)
  all_goals simp_all

lemma slot_onMessageNegotiationNeeded (c : Channel) :
    (onMessageNegotiationNeeded c).1.setRemoteSdpTask = c.setRemoteSdpTask := by
  unfold onMessageNegotiationNeeded createOffer
  repeat' split
  all_goals simp_all
  all_goals (repeat' split)
  all_goals simp_all

lemma slot_onDataChannelStateChange (c : Channel) (isOpen : Bool) :
    (onDataChannelStateChange c isOpen).1.setRemoteSdpTask = c.setRemoteSdpTask := by
  unfold onDataChannelStateChange drainPendingMessages
  repeat' split
  all_goals simp_all
  all_goals (repeat' split)
  all_goals simp_all

lemma slot_onAddStream (c : Channel) (s : RemoteMediaStream) :
    (onAddStream c s).1.setRemoteSdpTask = c.setRemoteSdpTask := by
  unfold onAddStream
  repeat' split
  all_goals simp_all
  all_goals (repeat' split)
  all_goals simp_all

lemma slot_onRemoveStream (c : Channel) (s : RemoteMediaStream) :
    (onRemoveStream c s).1.setRemoteSdpTask = c.setRemoteSdpTask := by
  unfold onRemoveStream
  repeat' split
  all_goals simp_all
  all_goals (repeat' split)
  all_goals simp_all

lemma slot_arith (c : Channel) (e : Event)
    (hp : (step c e).1.setRemoteSdpTask = c.setRemoteSdpTask)
    (h1 : deferredPostsIn c e = 0) (h2 : dropsIn c e = 0) (h3 : storesIn c e = 0) :
    slotN (step c e).1 + deferredPostsIn c e + dropsIn c e =
      slotN c + storesIn c e := by
  rw [h1, h2, h3]
  simp [slotN, hp]

lemma slot_step (c : Channel) (e : Event) :
    slotN (step c e).1 + deferredPostsIn c e + dropsIn c e =
      slotN c + storesIn c e := by
  cases e with
  | invite hS hF =>
    exact slot_arith c _ (slot_invite c hS hF) rfl rfl rfl
  | accept hS hF =>
    exact slot_arith c _ (slot_accept c hS hF) rfl rfl rfl
  | deny hS hF =>
    exact slot_arith c _ (slot_deny c hS hF) rfl rfl rfl
  | stopCall hS hF =>
    exact slot_arith c _ (slot_stop c hS hF) rfl rfl rfl
  | publish s hS hF =>
    exact slot_arith c _ (slot_publish c s hS hF) rfl rfl rfl
  | unpublish s hS hF =>
    exact slot_arith c _ (slot_unpublish c s hS hF) rfl rfl rfl
  | send msg hS hF =>
    exact slot_arith c _ (slot_send c msg hS hF) rfl rfl rfl
  | getStats hS hF => exact slot_arith c _ rfl rfl rfl rfl
  | addObserver o => exact slot_arith c _ rfl rfl rfl rfl
  | removeObserver o => exact slot_arith c _ rfl rfl rfl rfl
  | incoming m =>
    cases m with
    | signal p =>
      obtain ⟨pty, psdp, pmid, pmln, pcand⟩ := p
      simp only [step, onIncomingSignalingMessage, onMessageSignal, deferredPostsIn,
        dropsIn, storesIn, isStoreEvent, isIceClosedEvent, changeSessionState]
      by_cases hb : signalBlocked c.sessionState = true
      · simp [hb, slotN]
      · by_cases hty : pty = "offer"
        · by_cases hmm : c.sessionState = .Matched <;>
            cases psdp <;>
              by_cases hst : c.signalingState = SignalingState.Stable <;>
                cases hsl : c.setRemoteSdpTask <;>
                  simp [hb, hty, hmm, hst, hsl, slotN]
        · by_cases ha : pty = "answer"
          · cases psdp <;>
              cases hsl : c.setRemoteSdpTask <;> simp [hb, hty, ha, hsl, slotN]
          · by_cases hc : pty = "candidates" <;>
              cases hsl : c.setRemoteSdpTask <;> simp [hb, hty, ha, hc, hsl, slotN]
    | invitation rn =>
      exact slot_arith c _ (slot_onMessageInvitation c rn) rfl rfl rfl
    | acceptance rn =>
      exact slot_arith c _ (slot_onMessageAcceptance c rn) rfl rfl rfl
    | deny => exact slot_arith c _ (slot_onMessageDeny c) rfl rfl rfl
    | stop => exact slot_arith c _ (slot_onMessageStop c) rfl rfl rfl
    | negotiationNeeded =>
      exact slot_arith c _ (slot_onMessageNegotiationNeeded c) rfl rfl rfl
    | trackSources entries => exact slot_arith c _ rfl rfl rfl rfl
  | signalingChange s =>
    simp only [step, onSignalingChange, deferredPostsIn, dropsIn, storesIn,
      isStoreEvent, isIceClosedEvent]
    cases s with
    | Stable =>
      cases hsl : c.setRemoteSdpTask with
      | some d => simp [hsl, slotN, isSetRemotePost, step, onSignalingChange]
      | none =>
        have h := checkWaitedList_slot { c with signalingState := SignalingState.Stable }
        simp only [hsl] at h ⊢
        simp [slotN, h, hsl, step, onSignalingChange]
    | HaveLocalOffer => simp [slotN, step, onSignalingChange]
    | HaveRemoteOffer => simp [slotN, step, onSignalingChange]
    | HaveLocalPrAnswer => simp [slotN, step, onSignalingChange]
    | HaveRemotePrAnswer => simp [slotN, step, onSignalingChange]
    | Closed => simp [slotN, step, onSignalingChange]
  | iceChange s =>
    cases s with
    | IceClosed =>
      cases hsl : c.setRemoteSdpTask <;>
        simp [step, onIceConnectionChange, cleanLastPeerConnection, deferredPostsIn,
          dropsIn, storesIn, isStoreEvent, isIceClosedEvent, slotN, hsl]
    | IceConnected =>
      have h := checkWaitedList_slot { c with sessionState := SessionState.Connected }
      by_cases hcn : c.sessionState = .Connecting <;>
        simp [step, onIceConnectionChange, changeSessionState, deferredPostsIn, dropsIn,
          storesIn, isStoreEvent, isIceClosedEvent, slotN, hcn, h]
    | IceCompleted =>
      have h := checkWaitedList_slot { c with sessionState := SessionState.Connected }
      by_cases hcn : c.sessionState = .Connecting <;>
        simp [step, onIceConnectionChange, changeSessionState, deferredPostsIn, dropsIn,
          storesIn, isStoreEvent, isIceClosedEvent, slotN, hcn, h]
    | IceDisconnected => exact slot_arith c _ rfl rfl rfl rfl
    | IceNew => exact slot_arith c _ rfl rfl rfl rfl
    | IceChecking => exact slot_arith c _ rfl rfl rfl rfl
    | IceFailed => exact slot_arith c _ rfl rfl rfl rfl
  | iceCandidate mid mline cand => exact slot_arith c _ rfl rfl rfl rfl
  | renegotiationNeeded =>
    exact slot_arith c _ (slot_onRenegotiationNeeded c) rfl rfl rfl
  | createSdpSuccess d => exact slot_arith c _ rfl rfl rfl rfl
  | createSdpFailure =>
    exact slot_arith c _ (slot_stop c false false) rfl rfl rfl
  | setLocalSuccess d => exact slot_arith c _ rfl rfl rfl rfl
  | setLocalFailure =>
    exact slot_arith c _ (slot_stop c false false) rfl rfl rfl
  | setRemoteSuccess => exact slot_arith c _ rfl rfl rfl rfl
  | setRemoteFailure =>
    exact slot_arith c _ (slot_stop c false false) rfl rfl rfl
  | dataChannelAcquired isOpen => exact slot_arith c _ rfl rfl rfl rfl
  | dataChannelStateChange isOpen =>
    exact slot_arith c _ (slot_onDataChannelStateChange c isOpen) rfl rfl rfl
  | dataChannelMessage binary payload => exact slot_arith c _ rfl rfl rfl rfl
  | engineAddStream s =>
    exact slot_arith c _ (slot_onAddStream c s) rfl rfl rfl
  | engineRemoveStream s =>
    exact slot_arith c _ (slot_onRemoveStream c s) rfl rfl rfl
  | reconnectTimeout expired =>
    cases expired with
    | false => exact slot_arith c _ rfl rfl rfl rfl
    | true => exact slot_arith c _ (slot_stop c false false) rfl rfl rfl

lemma slot_run (c : Channel) (es : List Event) :
    slotN (runCh c es) + totalDeferredPosts c es + totalDrops c es =
      slotN c + totalStores c es := by
  induction es generalizing c with
  | nil => simp [runCh, totalDeferredPosts, totalDrops, totalStores]
  | cons e es ih =>
    have h := slot_step c e
    have h2 := ih (step c e).1
    simp only [runCh, totalDeferredPosts, totalDrops, totalStores]
    omega

/-- Claim C3: a remote offer arriving while the engine signaling state is
not `Stable` is stored in the single deferred slot — replacing whatever was
there — and is not posted by that step; a `SignalingChange(Stable)` with an
occupied slot posts exactly the stored description and clears the slot, and
with an empty slot posts no remote description; per step and along any run
the deferred posts, drops and slot occupancy balance the stores exactly, so
each stored deferred offer is posted to the engine at most once. -/
theorem c3_deferred_offer_lifecycle :
    (∀ (c : Channel) (p : SignalPayload) (s : String),
      signalBlocked c.sessionState = false → p.ty = "offer" → p.sdp = some s →
      c.signalingState ≠ SignalingState.Stable →
      (onMessageSignal c p).1.setRemoteSdpTask = some { ty := "offer", sdp := s } ∧
      setRemotePosts (onMessageSignal c p).2 = 0) ∧
    (∀ (c : Channel) (d : Sdp), c.setRemoteSdpTask = some d →
      (step c (.signalingChange .Stable)).1.setRemoteSdpTask = none ∧
      (step c (.signalingChange .Stable)).2 =
        [.enginePost (.setRemoteDescription d)]) ∧
    (∀ c : Channel, c.setRemoteSdpTask = none →
      setRemotePosts (step c (.signalingChange .Stable)).2 = 0) ∧
    (∀ (c : Channel) (e : Event),
      slotN (step c e).1 + deferredPostsIn c e + dropsIn c e =
        slotN c + storesIn c e) ∧
    (∀ (c : Channel) (es : List Event),
      totalDeferredPosts c es ≤ slotN c + totalStores c es) := by
  refine ⟨fun c p s hb hty hsdp hst => ?_, fun c d hsl => ?_, fun c hsl => ?_,
    slot_step, fun c es => ?_⟩
  · by_cases hmm : c.sessionState = .Matched <;>
      simp [onMessageSignal, hb, hty, hsdp, hst, hmm, changeSessionState,
        isSetRemotePost]
  · simp [step, onSignalingChange, hsl]
  · simp [step, onSignalingChange, hsl]
  · have h := slot_run c es
    omega

/-- Claim C3, witness: flushing the concrete deferred channel on `Stable`
posts its stored offer once and clears the slot; a new remote offer on a
non-`Stable` channel lands in the slot, replacing the stored one, without
being posted. -/
theorem c3_deferred_offer_lifecycle_witness :
    (step deferredChannel (.signalingChange .Stable)).1.setRemoteSdpTask = none ∧
    (step deferredChannel (.signalingChange .Stable)).2 =
      [.enginePost (.setRemoteDescription { ty := "offer", sdp := "v=0 remote" })] ∧
    (onMessageSignal deferredChannel offerPayload).1.setRemoteSdpTask =
      some { ty := "offer", sdp := "v=0 new" } ∧
    setRemotePosts (onMessageSignal deferredChannel offerPayload).2 = 0 := by
  refine ⟨(c3_deferred_offer_lifecycle.2.1 deferredChannel _ rfl).1,
    (c3_deferred_offer_lifecycle.2.1 deferredChannel _ rfl).2, ?_, ?_⟩
  · exact (c3_deferred_offer_lifecycle.1 deferredChannel offerPayload "v=0 new"
      rfl rfl rfl (by decide)).1
  · exact (c3_deferred_offer_lifecycle.1 deferredChannel offerPayload "v=0 new"
      rfl rfl rfl (by decide)).2

/-- Claim C2: a remote invitation received in `Offered` applies the
lexicographic tie-break: when the remote id is greater than the local id
the channel sends `chat-accepted` and moves to `Matched`; otherwise it
stays in `Offered` and produces no output at all, so of two symmetrically
inviting peers exactly one accepts. -/
theorem c2_offered_invitation_tiebreak (c : Channel) (rn : String)
    (h : c.sessionState = .Offered) :
    (strLt c.localId c.remoteId = true →
      (onMessageInvitation c rn).1.sessionState = .Matched ∧
      (onMessageInvitation c rn).2 = [.signaling .acceptance, .stateChange .Matched]) ∧
    (strLt c.localId c.remoteId = false →
      (onMessageInvitation c rn).1.sessionState = .Offered ∧
      (onMessageInvitation c rn).2 = []) := by
  constructor <;> intro hlt <;>
    by_cases hfr : rn = "FireFox" <;>
      simp [onMessageInvitation, handleRemoteCapability, changeSessionState, hfr, h, hlt]

/-- Claim C2, witness: a channel with local id `alpha` and remote id
`beta` in `Offered` accepts and matches on the remote invitation. -/
theorem c2_offered_invitation_tiebreak_witness :
    (onMessageInvitation offeredChannel "Chrome").1.sessionState = .Matched ∧
    (onMessageInvitation offeredChannel "Chrome").2 =
      [.signaling .acceptance, .stateChange .Matched] :=
  (c2_offered_invitation_tiebreak offeredChannel "Chrome" rfl).1 (by decide)

/-- Claim C8: `Stop` in `Connecting|Connected` posts the peer-connection
close, sends exactly one `chat-closed` (the missing `break` only makes the
close arm fall into the `Matched` arm, which performs the single send),
moves to `Ready`, and fires no `OnStopped` itself. -/
theorem c8_stop_connecting_connected (c : Channel) (hS hF : Bool)
    (h : c.sessionState = .Connecting ∨ c.sessionState = .Connected) :
    (stop c hS hF).1.sessionState = .Ready ∧
    countStopSig (stop c hS hF).2 = 1 ∧
    Output.enginePost .closePC ∈ (stop c hS hF).2 ∧
    countOnStopped (stop c hS hF).2 = 0 := by
  rcases h with h | h <;> cases hS <;>
    simp [stop, h, changeSessionState, postSuccess, countStopSig, countOnStopped,
      isOnStoppedOut, List.filter] <;> decide

/-- Claim C8, witness: stopping the concrete `Connecting` channel. -/
theorem c8_stop_connecting_connected_witness :
    (stop connectingChannel true true).1.sessionState = .Ready ∧
    countStopSig (stop connectingChannel true true).2 = 1 ∧
    Output.enginePost .closePC ∈ (stop connectingChannel true true).2 ∧
    countOnStopped (stop connectingChannel true true).2 = 0 :=
  c8_stop_connecting_connected connectingChannel true true (Or.inl rfl)

/-- Claim C9: in every session state, `GetConnectionStats` with a null
`on_success` posts `InvalidArgument` to `on_failure` when one is given and
issues nothing else — in particular no stats request reaches the engine,
even when the session is `Connected`. -/
theorem c9_get_stats_null_callback (c : Channel) (hF : Bool) :
    step c (.getStats false hF) =
      (c, if hF then [Output.eventTask (.failTask .InvalidArgument)] else []) ∧
    Output.enginePost .getStats ∉ (step c (.getStats false hF)).2 := by
  constructor
  · simp [step, getConnectionStats, postFailure]
  · cases hF <;> simp [step, getConnectionStats, postFailure]

/-- Claim C10: a binary data-channel buffer is dropped with no outputs at
all; a text buffer delivers `OnData(remote_id, text)` to every registered
observer in registration order, and neither case mutates the channel. -/
theorem c10_data_channel_message (c : Channel) (payload : String) :
    step c (.dataChannelMessage true payload) = (c, []) ∧
    step c (.dataChannelMessage false payload) =
      (c, c.observers.map (fun o => Output.observer (.OnData o c.remoteId payload))) := by
  constructor <;> simp [step, onDataChannelMessage]

end P2P
